import Mathlib

/-!
Verification of the command dispatch / argument-validation engine of the
`mc_con_ctrl` repository (package `mc_console_ctrl`).

The Python sources are shallowly embedded: every handler of
`src/mc_console_ctrl/commands.py` that the claims touch is translated into a
pure Lean function from the server state, a transport oracle and the raw
command line to a `HandlerResult` recording, in order, the console prints, the
strings passed to `MinecraftServer.send_command`, the database writes, and the
updated in-memory state.  Python string operations (`str.split()`,
`str.lower()`, `str.replace`, `in`, `float()`, `int()`, `sorted`) are
re-implemented structurally on character lists so that all definitions are
executable and kernel-reducible.  Strings are modelled over their character
data; Python lowercasing is modelled on ASCII, which covers every identifier
in the reference catalog.
-/

namespace McConCtrl

/-- ASCII lowercase of one character, the relevant fragment of Python
`str.lower()`. -/
def asciiLower (c : Char) : Char :=
  if 'A' ≤ c && c ≤ 'Z' then Char.ofNat (c.toNat + 32) else c

/-- Python `s.lower()` (ASCII fragment). -/
def lowerStr (s : String) : String := String.mk (s.data.map asciiLower)

/-- Python `s.capitalize()` (ASCII fragment): first character uppercased, the
rest lowercased. -/
def asciiUpper (c : Char) : Char :=
  if 'a' ≤ c && c ≤ 'z' then Char.ofNat (c.toNat - 32) else c

def pyCapitalize (s : String) : String :=
  match s.data with
  | [] => ""
  | c :: cs => String.mk (asciiUpper c :: cs.map asciiLower)

/-- Python `s.replace(",", " ")`: every comma becomes a space. -/
def commaToSpace (s : String) : String :=
  String.mk (s.data.map (fun c => if c == ',' then ' ' else c))

/-- Worker for Python `str.split()` with no argument: split on runs of
whitespace, dropping empty tokens.  `cur` is the current word, reversed. -/
def pyWordsAux (cur : List Char) : List Char → List String
  | [] => if cur.isEmpty then [] else [String.mk cur.reverse]
  | c :: cs =>
    if c.isWhitespace then
      if cur.isEmpty then pyWordsAux [] cs
      else String.mk cur.reverse :: pyWordsAux [] cs
    else pyWordsAux (c :: cur) cs

/-- Python `s.split()`: whitespace-separated tokens, empties dropped.  The
extra `[x for x in v.split() if x]` filter in the handlers is a no-op atop
this. -/
def pySplit (s : String) : List String := pyWordsAux [] s.data

/-- Worker for splitting on a single separator character, keeping empty
pieces — Python `s.split(",")` / `s.split("_")`. -/
def splitOnCharAux (sep : Char) (cur : List Char) : List Char → List (List Char)
  | [] => [cur.reverse]
  | c :: cs =>
    if c == sep then cur.reverse :: splitOnCharAux sep [] cs
    else splitOnCharAux sep (c :: cur) cs

/-- Python `s.split(",")` (single-character separator, empties kept). -/
def splitComma (s : String) : List String :=
  (splitOnCharAux ',' [] s.data).map String.mk

/-- Python `s.strip()`: surrounding whitespace removed. -/
def pyStrip (s : String) : String :=
  String.mk (((s.data.dropWhile Char.isWhitespace).reverse.dropWhile
    Char.isWhitespace).reverse)

/-- Python `needle in hay` on lists of characters (substring anywhere). -/
def subOf (needle : List Char) : List Char → Bool
  | [] => needle.isEmpty
  | c :: cs => needle.isPrefixOf (c :: cs) || subOf needle cs

/-- Python `needle in hay` on strings. -/
def strContainsSub (hay needle : String) : Bool := subOf needle.data hay.data

/-- Python `s.startswith(p)`. -/
def startsWithStr (s p : String) : Bool := p.data.isPrefixOf s.data

/-- `s[n:]` on strings. -/
def dropStr (s : String) (n : Nat) : String := String.mk (s.data.drop n)

/-- Python `sep.join(l)`. -/
def joinSep (sep : String) : List String → String
  | [] => ""
  | [x] => x
  | x :: xs => x ++ sep ++ joinSep sep xs

/-- Code-point comparison of character data, the order Python uses to compare
strings: `strLeChars a b` is `a ≤ b` lexicographically. -/
def strLeChars : List Char → List Char → Bool
  | [], _ => true
  | _ :: _, [] => false
  | a :: as, b :: bs =>
    if a.toNat < b.toNat then true
    else if b.toNat < a.toNat then false
    else strLeChars as bs

/-- Python string `≤` (code-point lexicographic). -/
def strLe (a b : String) : Bool := strLeChars a.data b.data

/-- Insert into a `strLe`-sorted list. -/
def insertSorted (a : String) : List String → List String
  | [] => [a]
  | b :: bs => if strLe a b then a :: b :: bs else b :: insertSorted a bs

/-- Python `sorted` on strings (insertion sort; stability is irrelevant for
the de-duplicated inputs it is used on). -/
def pySorted : List String → List String
  | [] => []
  | a :: as => insertSorted a (pySorted as)

/-! ### Python numeric-literal acceptance

`float(tok)` / `int(tok)` on whitespace-free tokens.  A digit part is a
nonempty digit string with single underscores allowed between digits. -/

/-- Split a character list at the first character satisfying `p`, returning
the part before it and, when found, the part after it. -/
def splitFirst (p : Char → Bool) : List Char → List Char × Option (List Char)
  | [] => ([], none)
  | c :: cs =>
    if p c then ([], some cs)
    else
      let r := splitFirst p cs
      (c :: r.1, r.2)

/-- A valid Python digit part: nonempty, digits with single underscores
strictly between digits (`"1_0"` ok; `""`, `"_1"`, `"1_"`, `"1__0"` not). -/
def digitGroupsOk (cs : List Char) : Bool :=
  (splitOnCharAux '_' [] cs).all (fun g => !g.isEmpty && g.all Char.isDigit)

/-- Mantissa of a float literal: `digits`, `digits.`, `.digits` or
`digits.digits`. -/
def mantissaOk (cs : List Char) : Bool :=
  match splitFirst (fun c => c == '.') cs with
  | (intPart, none) => digitGroupsOk intPart
  | (intPart, some fracPart) =>
    (!intPart.isEmpty || !fracPart.isEmpty) &&
    (intPart.isEmpty || digitGroupsOk intPart) &&
    (fracPart.isEmpty || digitGroupsOk fracPart)

/-- Exponent tail of a float literal: optional sign then a digit part. -/
def expOk (cs : List Char) : Bool :=
  match cs with
  | '+' :: t => digitGroupsOk t
  | '-' :: t => digitGroupsOk t
  | t => digitGroupsOk t

/-- Unsigned body of a Python float literal, including the `inf`, `infinity`
and `nan` spellings (case-insensitive). -/
def floatBodyOk (cs : List Char) : Bool :=
  let l := cs.map asciiLower
  if l == "inf".data || l == "infinity".data || l == "nan".data then true
  else
    match splitFirst (fun c => c == 'e' || c == 'E') cs with
    | (mant, none) => mantissaOk mant
    | (mant, some ex) => mantissaOk mant && expOk ex

/-- Does Python `float(s)` accept `s` (for whitespace-free tokens)? -/
def isPyFloat (s : String) : Bool :=
  match s.data with
  | '+' :: t => floatBodyOk t
  | '-' :: t => floatBodyOk t
  | t => floatBodyOk t

/-- Numeric value of a digit part (underscores skipped). -/
def digitsVal (cs : List Char) : Nat :=
  cs.foldl (fun acc c => if c == '_' then acc else acc * 10 + (c.toNat - 48)) 0

/-- Python `int(s)` on a whitespace-free token: `some` value when accepted,
`none` when it raises `ValueError`. -/
def pyInt? (s : String) : Option Int :=
  match s.data with
  | '+' :: t => if digitGroupsOk t then some (Int.ofNat (digitsVal t)) else none
  | '-' :: t => if digitGroupsOk t then some (-Int.ofNat (digitsVal t)) else none
  | t => if digitGroupsOk t then some (Int.ofNat (digitsVal t)) else none

/-! ### Data model

One row of the `resources` table.  Per the data model, `id` ("Resource
location") and `display_name` ("Name") are strings; `enchantment_max_level`
and `enchantment_applies_to` are optional (Enchantment only) and `none`
models a SQL NULL, on which pandas `notna` is false and `x or 1` yields the
default. -/

structure ResourceRow where
  resource_type : String
  resource_location : String
  name : String
  enchantment_max_level : Option Nat
  enchantment_applies_to : Option String
deriving DecidableEq

/-- One row of the `settings` table. -/
structure SettingRow where
  setting : String
  value : String
deriving DecidableEq

/-- One row of the `named_pos` table. -/
structure NamedPosRow where
  pos_name : String
  pos_value : String
deriving DecidableEq

/-- The in-memory tables of `MinecraftServer`; `none` models a dataframe that
is `None` after a failed load, `some rows` a loaded table in iteration
order. -/
structure ServerState where
  resources_df : Option (List ResourceRow)
  settings_df : Option (List SettingRow)
  named_pos_df : Option (List NamedPosRow)
deriving DecidableEq

/-- Python `row["enchantment_max_level"] or 1`: NULL and 0 are falsy. -/
def orOne : Option Nat → Nat
  | none => 1
  | some 0 => 1
  | some (n + 1) => n + 1

/-- Outcome of one `send_command` call as observed by a handler: the returned
acknowledgement string, or the text of the raised exception. -/
inductive PyResult where
  | ok (s : String)
  | err (s : String)
deriving DecidableEq

/-- A write issued to the SQLite database. -/
inductive DbWrite where
  | insertNamedPos (pos_name pos_value : String)
  | deleteNamedPos (pos_name : String)
  | updatePlayers (value : String)
  | insertPlayers (value : String)
deriving DecidableEq

/-- Everything observable about one handler invocation: console prints,
strings passed to `send_command` (the transport calls), database writes, and
the updated in-memory state, each in program order. -/
structure HandlerResult where
  prints : List String
  sends : List String
  dbWrites : List DbWrite
  state : ServerState
deriving DecidableEq

/-- Handler return with a message and no side effect (usage and validation
errors). -/
def rejectWith (st : ServerState) (msgs : List String) : HandlerResult :=
  { prints := msgs, sends := [], dbWrites := [], state := st }

/-- Build one transport call and report its outcome: the handler sends `mc`,
prints `[green]{result}` on success, and its `except` clause prints
`[red]{errPre}{e}` when `send_command` raises.  `pres` are the prints made
before the send. -/
def sendReport (st : ServerState) (sendRes : Nat → PyResult) (pres : List String)
    (mc : String) (errPre : String) : HandlerResult :=
  match sendRes 0 with
  | .ok r => { prints := pres ++ [s!"[green]{r}"], sends := [mc], dbWrites := [], state := st }
  | .err e => { prints := pres ++ [s!"[red]{errPre}{e}"], sends := [mc], dbWrites := [], state := st }

/-! ### Outbound command construction (the f-strings of commands.py) -/

def giveCmdStr (player item quantity : String) : String :=
  s!"give {player} {item} {quantity}"

def enchantCmdStr (player enchantment level : String) : String :=
  s!"enchant {player} {enchantment} {level}"

def effectCmdStr (player effect seconds amplifier hide_particles : String) : String :=
  s!"effect {player} {effect} {seconds} {amplifier} {hide_particles}"

def tpCmdStr (player destination : String) : String :=
  s!"tp {player} {destination}"

/-! ### give_command (commands.py 125-189) -/

/-- Row is in the give category: `resource_type.isin(["block", "item"])`
(exact-case comparison, as in the source). -/
def giveCatRow (r : ResourceRow) : Bool :=
  r.resource_type == "block" || r.resource_type == "item"

/-- The boolean mask of the exact case-insensitive item lookup. -/
def giveMatch (item : String) (r : ResourceRow) : Bool :=
  giveCatRow r && lowerStr r.resource_location == lowerStr item

/-- The shared suggestion loop: append the projection of each matching row in
iteration order and break as soon as 5 are collected (the cap is enforced
during collection). -/
def collectCapped {α : Type} (f : ResourceRow → Option α) : Nat → List ResourceRow → List α
  | _, [] => []
  | cap, r :: rs =>
    match f r with
    | some a => if cap ≤ 1 then [a] else a :: collectCapped f (cap - 1) rs
    | none => collectCapped f cap rs

def giveSuggestionRow (item : String) (r : ResourceRow) :
    Option (String × String × String) :=
  if strContainsSub (lowerStr r.resource_location) (lowerStr item) then
    some (r.resource_location, r.name, pyCapitalize r.resource_type)
  else none

def giveSuggestions (item : String) (df : List ResourceRow) :
    List (String × String × String) :=
  collectCapped (giveSuggestionRow item) 5 (df.filter giveCatRow)

def give_command (st : ServerState) (sendRes : Nat → PyResult)
    (cmd_line : String) : HandlerResult :=
  match pySplit cmd_line with
  | _ :: player :: item :: rest =>
    let quantity := rest.headD "1"
    match st.resources_df with
    | some df =>
      match df.find? (giveMatch item) with
      | some row =>
        let item2 := row.resource_location
        sendReport st sendRes [] (giveCmdStr player item2 quantity) "Error giving items: "
      | none =>
        let sugg := giveSuggestions item df
        rejectWith st
          (s!"[red]Invalid item: {item}" ::
            (if sugg.isEmpty then [] else
              "[yellow]Did you mean one of these?" ::
                sugg.map fun s =>
                  let loc := s.1
                  let nm := s.2.1
                  let rt := s.2.2
                  s!"  - {loc} ({rt}: {nm})"))
    | none =>
      sendReport st sendRes [] (giveCmdStr player item quantity) "Error giving items: "
  | _ => rejectWith st ["[yellow]Usage: give <playername> <item> [quantity]"]

/-! ### enchant_command (commands.py 191-268) -/

def enchantCatRow (r : ResourceRow) : Bool :=
  lowerStr r.resource_type == "enchantment"

def enchantMatch (ench : String) (r : ResourceRow) : Bool :=
  enchantCatRow r && lowerStr r.resource_location == lowerStr ench

def enchantSuggestionRow (ench : String) (r : ResourceRow) :
    Option (String × String × Nat) :=
  if strContainsSub (lowerStr r.resource_location) (lowerStr ench) then
    some (r.resource_location, r.name, orOne r.enchantment_max_level)
  else none

def enchantSuggestions (ench : String) (df : List ResourceRow) :
    List (String × String × Nat) :=
  collectCapped (enchantSuggestionRow ench) 5 (df.filter enchantCatRow)

/-- Level validation of `enchant`: parse as int, default to `"1"` with a
warning on failure, clamp into `[1, max_level]` with a warning when out of
range; in range, the original spelling typed by the user is kept. -/
def validatedLevel (level : String) (max_level : Nat) : String × List String :=
  match pyInt? level with
  | some n =>
    if n < 1 || n > (max_level : Int) then
      (toString (min (max 1 n) (max_level : Int)),
        [s!"[yellow]Warning: Level should be between 1 and {max_level}"])
    else (level, [])
  | none => ("1", ["[yellow]Invalid level, using 1"])

def enchant_command (st : ServerState) (sendRes : Nat → PyResult)
    (cmd_line : String) : HandlerResult :=
  match pySplit cmd_line with
  | _ :: player :: enchantment :: rest =>
    let level := rest.headD "1"
    match st.resources_df with
    | some df =>
      match df.find? (enchantMatch enchantment) with
      | some row =>
        let ench2 := row.resource_location
        let max_level := orOne row.enchantment_max_level
        let v := validatedLevel level max_level
        let lvl := v.1
        sendReport st sendRes v.2 (enchantCmdStr player ench2 lvl) "Error applying enchantment: "
      | none =>
        let sugg := enchantSuggestions enchantment df
        rejectWith st
          (s!"[red]Invalid enchantment: {enchantment}" ::
            (if sugg.isEmpty then [] else
              "[yellow]Did you mean one of these?" ::
                sugg.map fun s =>
                  let loc := s.1
                  let nm := s.2.1
                  let ml := s.2.2
                  s!"  - {loc} ({nm}, Max Level: {ml})"))
    | none =>
      sendReport st sendRes [] (enchantCmdStr player enchantment level) "Error applying enchantment: "
  | _ => rejectWith st ["[yellow]Usage: enchant <playername> <enchantment> [level]"]

/-! ### effect_command (commands.py 270-357) -/

def effectCatRow (r : ResourceRow) : Bool :=
  lowerStr r.resource_type == "effect"

def effectMatch (eff : String) (r : ResourceRow) : Bool :=
  effectCatRow r && lowerStr r.resource_location == lowerStr eff

def effectSuggestionRow (eff : String) (r : ResourceRow) :
    Option (String × String) :=
  if strContainsSub (lowerStr r.resource_location) (lowerStr eff) then
    some (r.resource_location, r.name)
  else none

def effectSuggestions (eff : String) (df : List ResourceRow) :
    List (String × String) :=
  collectCapped (effectSuggestionRow eff) 5 (df.filter effectCatRow)

/-- Seconds validation of `effect`: default `"30"` with a warning on parse
failure, floor at 1 with a warning; no upper bound. -/
def validatedSeconds (seconds : String) : String × List String :=
  match pyInt? seconds with
  | some n =>
    if n < 1 then ("1", ["[yellow]Warning: Duration must be at least 1 second"])
    else (seconds, [])
  | none => ("30", ["[yellow]Invalid duration, using 30 seconds"])

/-- Amplifier validation of `effect`: default `"0"` with a warning on parse
failure, clamp into `[0, 255]` with a warning. -/
def validatedAmplifier (amplifier : String) : String × List String :=
  match pyInt? amplifier with
  | some n =>
    if n < 0 || n > 255 then
      (toString (min (max 0 n) (255 : Int)),
        ["[yellow]Warning: Amplifier must be between 0 and 255"])
    else (amplifier, [])
  | none => ("0", ["[yellow]Invalid amplifier, using 0"])

def effect_command (st : ServerState) (sendRes : Nat → PyResult)
    (cmd_line : String) : HandlerResult :=
  match pySplit cmd_line with
  | _ :: player :: effect :: rest =>
    let seconds := rest.getD 0 "30"
    let amplifier := rest.getD 1 "0"
    let hide_particles := rest.getD 2 "true"
    match st.resources_df with
    | some df =>
      match df.find? (effectMatch effect) with
      | some row =>
        let eff2 := row.resource_location
        let vs := validatedSeconds seconds
        let va := validatedAmplifier amplifier
        let sec := vs.1
        let amp := va.1
        sendReport st sendRes (vs.2 ++ va.2)
          (effectCmdStr player eff2 sec amp hide_particles) "Error applying effect: "
      | none =>
        let sugg := effectSuggestions effect df
        rejectWith st
          (s!"[red]Invalid effect: {effect}" ::
            (if sugg.isEmpty then [] else
              "[yellow]Did you mean one of these?" ::
                sugg.map fun s =>
                  let loc := s.1
                  let nm := s.2
                  s!"  - {loc} ({nm})"))
    | none =>
      sendReport st sendRes []
        (effectCmdStr player effect seconds amplifier hide_particles) "Error applying effect: "
  | _ => rejectWith st ["[yellow]Usage: effect <player> <effect> [seconds] [amplifier] [hideParticles]"]

/-! ### maxenchant_command (commands.py 377-461) -/

/-- One entry of `matching_enchants` (the dict with keys id/name/max_level). -/
structure MatchingEnchant where
  id : String
  name : String
  max_level : Nat
deriving DecidableEq

/-- The `enchantments_df` mask: `resource_type == "enchantment"` (exact case)
and non-null "Resource location" and "enchantment_applies_to" (the location is
non-null in the model by the data-model invariant, so only the `applies_to`
check remains). -/
def maxenchantFilter (r : ResourceRow) : Bool :=
  r.resource_type == "enchantment" && r.enchantment_applies_to.isSome

/-- Membership test of the matching loop: `"any" in applies_to.lower() or
itemtype.lower() in applies_to.lower()` (substring containment). -/
def maxenchantRow (itemtype_lower : String) (r : ResourceRow) :
    Option MatchingEnchant :=
  match r.enchantment_applies_to with
  | some ap =>
    let al := lowerStr ap
    if strContainsSub al "any" || strContainsSub al itemtype_lower then
      some { id := r.resource_location, name := r.name,
             max_level := orOne r.enchantment_max_level }
    else none
  | none => none

def matchingEnchants (itemtype : String) (df : List ResourceRow) :
    List MatchingEnchant :=
  (df.filter maxenchantFilter).filterMap (maxenchantRow (lowerStr itemtype))

/-- The valid-item-types listing shown when nothing matches: the stripped
comma-separated tags of every truthy `applies_to`, de-duplicated (a Python
set) and sorted. -/
def validItemTypes (df : List ResourceRow) : List String :=
  pySorted (((((df.filter maxenchantFilter).filterMap
    (fun r => r.enchantment_applies_to)).filter (fun s => s != "")).flatMap
    (fun s => (splitComma s).map pyStrip)).dedup)

/-- The outcome line printed for one enchantment of the loop:
`[green]{name} (Level {max_level}): {result}` on success, the
`[red]Failed to apply {name}: {e}` line of the inner `except` on failure. -/
def reportStr (res : PyResult) (e : MatchingEnchant) : String :=
  let nm := e.name
  let ml := e.max_level
  match res with
  | .ok r => s!"[green]{nm} (Level {ml}): {r}"
  | .err err => s!"[red]Failed to apply {nm}: {err}"

/-- The per-enchantment loop: build and send one `enchant` command per entry;
a raising send is caught inside the loop body, so the loop always continues to
the next entry.  Returns the transport calls and the per-entry report lines,
in order; `i` indexes the sends into the oracle. -/
def maxenchantLoop (sendRes : Nat → PyResult) (player : String) :
    Nat → List MatchingEnchant → List String × List String
  | _, [] => ([], [])
  | i, e :: es =>
    let eid := e.id
    let ml := e.max_level
    let mc := enchantCmdStr player eid (toString ml)
    let rep := reportStr (sendRes i) e
    let rest := maxenchantLoop sendRes player (i + 1) es
    (mc :: rest.1, rep :: rest.2)

def maxenchant_command (st : ServerState) (sendRes : Nat → PyResult)
    (cmd_line : String) : HandlerResult :=
  let parts := pySplit cmd_line
  if parts.length < 3 then
    rejectWith st ["[yellow]Usage: maxenchant <itemtype> <playername>"]
  else
    let itemtype := joinSep " " (parts.drop 1).dropLast
    let player := parts.getLastD ""
    match st.resources_df with
    | some df =>
      let matching := matchingEnchants itemtype df
      if matching.isEmpty then
        rejectWith st
          (s!"[yellow]No enchantments found for item type: {itemtype}" ::
            "[yellow]Valid item types:" ::
            (validItemTypes df).map fun t => s!"  - {t}")
      else
        let n := matching.length
        let run := maxenchantLoop sendRes player 0 matching
        { prints := s!"[green]Applying {n} enchantments to {player}\x27s {itemtype}..." ::
            run.2 ++ ["[green]Finished applying enchantments!"],
          sends := run.1, dbWrites := [], state := st }
    | none => { prints := [], sends := [], dbWrites := [], state := st }

/-! ### namedpos_command (commands.py 463-559) -/

/-- The success message of `namedpos add`. -/
def namedposAddedMsg (pos_name pos_value : String) : String :=
  s!"[green]Added position \x27{pos_name}\x27 with coordinates {pos_value}"

def namedpos_command (st : ServerState) (cmd_line : String) : HandlerResult :=
  let parts := pySplit cmd_line
  if parts.length < 2 then
    rejectWith st ["[yellow]Usage: namedpos list | namedpos add|del <pos_name> <x y z>"]
  else
    let action := lowerStr (parts.getD 1 "")
    if action != "add" && action != "del" && action != "list" then
      rejectWith st ["[yellow]Action must be either \x27add\x27, \x27del\x27, or \x27list\x27"]
    else
      let df := st.named_pos_df.getD []
      let st1 : ServerState := { st with named_pos_df := some df }
      if action == "list" then
        if df.length == 0 then rejectWith st1 ["[yellow]No named positions defined"]
        else
          rejectWith st1
            ("\n[green]Named Positions:" ::
              df.map (fun r =>
                let nm := r.pos_name
                let v := r.pos_value
                s!"  {nm}: {v}") ++ [""])
      else if parts.length < 4 then
        rejectWith st1 ["[yellow]Usage: namedpos add|del <pos_name> <x y z>"]
      else
        let pos_name := parts.getD 2 ""
        if action == "add" then
          let pos_value0 := commaToSpace (joinSep " " (parts.drop 3))
          let coords := pySplit pos_value0
          if coords.length != 3 then
            rejectWith st1 ["[yellow]Position must be three numbers (x y z)"]
          else if !coords.all isPyFloat then
            rejectWith st1 ["[yellow]Position coordinates must be numbers"]
          else
            let pos_value := joinSep " " coords
            match df.find? (fun r => r.pos_name == pos_name) with
            | some r =>
              let v := r.pos_value
              rejectWith st1
                [s!"[yellow]Position \x27{pos_name}\x27 already exists with value {v}"]
            | none =>
              { prints := [namedposAddedMsg pos_name pos_value],
                sends := [], dbWrites := [.insertNamedPos pos_name pos_value],
                state := { st1 with named_pos_df := some (df ++ [⟨pos_name, pos_value⟩]) } }
        else
          match df.find? (fun r => r.pos_name == pos_name) with
          | none => rejectWith st1 [s!"[yellow]Position \x27{pos_name}\x27 does not exist"]
          | some _ =>
            { prints := [s!"[green]Removed position \x27{pos_name}\x27"],
              sends := [], dbWrites := [.deleteNamedPos pos_name],
              state := { st1 with
                named_pos_df := some (df.filter (fun r => r.pos_name != pos_name)) } }

/-! ### player_command (commands.py 561-650) -/

/-- `set(value.split(","))` guarded by the truthiness of `value`: the empty
string gives the empty set.  Deduplication models set construction; order is
irrelevant because every later use is membership, sorted iteration or sorted
join. -/
def parsePlayers (v : String) : List String :=
  if v == "" then [] else (splitComma v).dedup

/-- `settings_df.loc[players_setting.index[0], "value"] = new_value`: replace
the value of the first `players` row only. -/
def setFirstPlayersValue (v : String) : List SettingRow → List SettingRow
  | [] => []
  | r :: rs =>
    if r.setting == "players" then { r with value := v } :: rs
    else r :: setFirstPlayersValue v rs

/-- The shared tail of a successful `player add`/`player del`: compute the
comma-joined sorted value, update or append the in-memory row, and issue the
matching UPDATE or INSERT. -/
def playerPersist (st1 : ServerState) (settings : List SettingRow)
    (players_setting : Option SettingRow) (new_players : List String)
    (msgs : List String) : HandlerResult :=
  let new_value := joinSep "," (pySorted new_players)
  match players_setting with
  | some _ =>
    { prints := msgs, sends := [], dbWrites := [.updatePlayers new_value],
      state := { st1 with settings_df := some (setFirstPlayersValue new_value settings) } }
  | none =>
    { prints := msgs, sends := [], dbWrites := [.insertPlayers new_value],
      state := { st1 with settings_df := some (settings ++ [⟨"players", new_value⟩]) } }

def player_command (st : ServerState) (cmd_line : String) : HandlerResult :=
  let parts := pySplit cmd_line
  if parts.length < 2 then
    rejectWith st ["[yellow]Usage: player list | player add|del <playername>"]
  else
    let action := lowerStr (parts.getD 1 "")
    if action != "add" && action != "del" && action != "list" then
      rejectWith st ["[yellow]Action must be either \x27add\x27, \x27del\x27, or \x27list\x27"]
    else
      let settings := st.settings_df.getD []
      let st1 : ServerState := { st with settings_df := some settings }
      let players_setting := settings.find? (fun r => r.setting == "players")
      let current_players :=
        match players_setting with
        | some row => parsePlayers row.value
        | none => []
      if action == "list" then
        if current_players.isEmpty then rejectWith st1 ["[yellow]No players in the list"]
        else
          rejectWith st1
            ("\n[green]Current players:" ::
              (pySorted current_players).map (fun p => s!"  - {p}") ++ [""])
      else if parts.length < 3 then
        rejectWith st1 ["[yellow]Usage: player add|del <playername>"]
      else
        let playername := parts.getD 2 ""
        if action == "add" then
          if current_players.contains playername then
            rejectWith st1 [s!"[yellow]Player \x27{playername}\x27 is already in the list"]
          else
            playerPersist st1 settings players_setting (playername :: current_players)
              [s!"[green]Added player \x27{playername}\x27 to the list"]
        else
          if !current_players.contains playername then
            rejectWith st1 [s!"[yellow]Player \x27{playername}\x27 is not in the list"]
          else
            playerPersist st1 settings players_setting
              (current_players.filter (fun p => p != playername))
              [s!"[green]Removed player \x27{playername}\x27 from the list"]

/-! ### tp_command (commands.py 652-722) -/

/-- Named-position resolution: when the table is loaded and has a row whose
`pos_name` equals the whole destination text, the stored coordinate string
replaces the destination. -/
def resolveDestination (st : ServerState) (destination : String) : String :=
  match st.named_pos_df with
  | some df =>
    match df.find? (fun r => r.pos_name == destination) with
    | some r => r.pos_value
    | none => destination
  | none => destination

/-- Per-coordinate validation of `tp` (the loop body at commands.py 691-713):
`"~"` and any token starting with `"~-"` or `"~+"` are accepted outright;
otherwise a float literal is accepted; otherwise a token starting with `"~"`
is accepted iff its tail is a float literal; each failure has its message. -/
def tpCoordErr (coord : String) : Option String :=
  if coord == "~" || startsWithStr coord "~-" || startsWithStr coord "~+" then none
  else if isPyFloat coord then none
  else if startsWithStr coord "~" then
    if isPyFloat (dropStr coord 1) then none
    else some "[yellow]Invalid relative coordinate format. Use ~ or ~<number>"
  else some "[yellow]Position coordinates must be numbers or use tilde notation (~)"

/-- Transcribed from the spec for comparison with the code (claim C1): a
coordinate token is accepted iff it is a plain floating-point literal, the
literal `~`, or `~` followed by a signed or unsigned floating-point literal. -/
def specCoordTokenOk (c : String) : Bool :=
  isPyFloat c || c == "~" || (startsWithStr c "~" && isPyFloat (dropStr c 1))

/-- The validation loop returns at the first offending coordinate. -/
def firstCoordErr : List String → Option String
  | [] => none
  | c :: cs =>
    match tpCoordErr c with
    | some m => some m
    | none => firstCoordErr cs

def tp_command (st : ServerState) (sendRes : Nat → PyResult)
    (cmd_line : String) : HandlerResult :=
  match pySplit cmd_line with
  | _ :: player :: d :: ds =>
    let destination := joinSep " " (d :: ds)
    if startsWithStr destination "@" then
      let target_player := dropStr destination 1
      sendReport st sendRes [] (tpCmdStr player target_player) "Error teleporting player: "
    else
      let dest := resolveDestination st destination
      let coord_parts := pySplit (commaToSpace dest)
      if coord_parts.length != 3 then
        rejectWith st ["[yellow]Position must be three coordinates (x y z)"]
      else
        match firstCoordErr coord_parts with
        | some msg => rejectWith st [msg]
        | none =>
          let pos_value := joinSep " " coord_parts
          sendReport st sendRes [] (tpCmdStr player pos_value) "Error teleporting player: "
  | _ => rejectWith st ["[yellow]Usage: tp <playername> <x y z | named_pos | @playername>"]

/-! ### The dispatch loop body (console.py 410-432) -/

/-- What one iteration of `MinecraftConsole.start` does with a line: `noop`
for the `if not command: continue` branch, `handled name line` when the first
token is registered (the handler gets the whole original line), `unknown` with
the first token otherwise, and `errored` when `command.split()[0]` raises
IndexError on a whitespace-only line and the catch-all of the loop prints a generic
failure notice. -/
inductive DispatchResult where
  | noop
  | handled (name : String) (line : String)
  | unknown (name : String)
  | errored
deriving DecidableEq

def dispatch (registered : List String) (command : String) : DispatchResult :=
  if command == "" then .noop
  else
    match pySplit command with
    | [] => .errored
    | name :: _ =>
      if registered.contains name then .handled name command else .unknown name

/-! ### MinecraftServer.startup / send_command (minecraft.py 70-177) -/

/-- The `_connected` flag after `startup` (minecraft.py 85-96): on Linux it
is set only when the tmux session is found, otherwise left as it was; on
Windows it is set unconditionally. -/
def startup_connected (is_windows tmux_exists connected0 : Bool) : Bool :=
  if !is_windows then (if tmux_exists then true else connected0) else true

/-- Observable outcome of `send_command`: result or raised error, the number
of external tmux invocations, and the prints. -/
structure SendOutcome where
  result : PyResult
  tmuxCalls : Nat
  prints : List String
deriving DecidableEq

/-- `send_command` (minecraft.py 150-177).  `tmuxErr = some e` models the
tmux relay invocation raising with message `e`. -/
def send_command (connected is_windows : Bool) (tmuxErr : Option String)
    (command : String) : SendOutcome :=
  if !connected then
    { result := .err "Not connected to Minecraft server", tmuxCalls := 0, prints := [] }
  else if is_windows then
    let esc := command ++ "\n"
    { result := .ok "Command logged (Windows development mode)", tmuxCalls := 0,
      prints := [s!"[dim]Would send command on Linux: {esc}"] }
  else
    match tmuxErr with
    | none => { result := .ok "Command sent successfully", tmuxCalls := 1, prints := [] }
    | some e =>
      { result := .err e, tmuxCalls := 1, prints := [s!"[red]Failed to send command: {e}"] }

/-- The all-successful transport oracle (every send returns the Linux success
acknowledgement), used to instantiate concrete runs. -/
def allOk : Nat → PyResult := fun _ => .ok "Command sent successfully"

/-! ## Conformance checks of the Python primitives

Test vectors for the re-implemented Python `float()`, `int()`, `split`,
`strip`, `capitalize`, `sorted` and substring semantics; each expected value
is what CPython produces. -/

example : isPyFloat "100" = true := by decide
example : isPyFloat "64.5" = true := by decide
example : isPyFloat "-3e2" = true := by decide
example : isPyFloat "~" = false := by decide
example : isPyFloat "~-5" = false := by decide
example : isPyFloat "+.5" = true := by decide
example : isPyFloat "5." = true := by decide
example : isPyFloat "." = false := by decide
example : isPyFloat "1_0" = true := by decide
example : isPyFloat "_1" = false := by decide
example : isPyFloat "1__0" = false := by decide
example : isPyFloat "inf" = true := by decide
example : isPyFloat "Infinity" = true := by decide
example : isPyFloat "+nan" = true := by decide
example : isPyFloat "1e" = false := by decide
example : isPyFloat "1e+2_0" = true := by decide
example : isPyFloat "1.2.3" = false := by decide
example : isPyFloat "abc" = false := by decide
example : isPyFloat "" = false := by decide
example : isPyFloat "-" = false := by decide
example : isPyFloat "+" = false := by decide
example : isPyFloat "~5" = false := by decide
example : isPyFloat "1_0.2_5e1_0" = true := by decide
example : isPyFloat "infx" = false := by decide
example : pyInt? "5" = some 5 := by decide
example : pyInt? "+5" = some 5 := by decide
example : pyInt? "-5" = some (-5) := by decide
example : pyInt? "1_0" = some 10 := by decide
example : pyInt? "1.5" = none := by decide
example : pyInt? "" = none := by decide
example : pyInt? "-" = none := by decide
example : pyInt? "_1" = none := by decide
example : pyInt? "007" = some 7 := by decide
example : pySplit "  a  b " = ["a", "b"] := by decide
example : pySplit "   " = [] := by decide
example : splitComma "a,,b" = ["a", "", "b"] := by decide
example : pyStrip " x " = "x" := by decide
example : pyCapitalize "abC" = "Abc" := by decide
example : pySorted ["b", "a", "c"] = ["a", "b", "c"] := by decide
example : strContainsSub "many things" "any" = true := by decide
example : strContainsSub "sword" "ord" = true := by decide
example : strContainsSub "sword" "xyz" = false := by decide
example : strContainsSub "abc" "" = true := by decide
example : commaToSpace "1,2,3" = "1 2 3" := by decide
example : lowerStr "Sharpness" = "sharpness" := by decide
example : startsWithStr "@steve" "@" = true := by decide
example : dropStr "@steve" 1 = "steve" := by decide
example : joinSep " " ["100", "64", "200"] = "100 64 200" := by decide
example : joinSep "," ["a", "b"] = "a,b" := by decide

/-! ## Helper lemmas -/

lemma sendReport_sends (st : ServerState) (f : Nat → PyResult) (pres : List String)
    (mc ep : String) : (sendReport st f pres mc ep).sends = [mc] := by
  unfold sendReport; cases f 0 <;> rfl

lemma sendReport_state (st : ServerState) (f : Nat → PyResult) (pres : List String)
    (mc ep : String) : (sendReport st f pres mc ep).state = st := by
  unfold sendReport; cases f 0 <;> rfl

lemma sendReport_dbWrites (st : ServerState) (f : Nat → PyResult) (pres : List String)
    (mc ep : String) : (sendReport st f pres mc ep).dbWrites = [] := by
  unfold sendReport; cases f 0 <;> rfl

lemma orOne_pos (o : Option Nat) : 1 ≤ orOne o := by
  match o with
  | none => exact le_refl 1
  | some 0 => exact le_refl 1
  | some (n + 1) => exact Nat.succ_le_succ (Nat.zero_le n)

/-! ## Claims -/

/-- C3, counterexample to the claim as stated: on the Linux branch with no
tmux session found, `startup` leaves the connection flag false (it is not set
unconditionally), and a subsequent send fails its not-connected precondition
check with `ConnectionError`. -/
theorem C3_counterexample :
    startup_connected false false false = false ∧
    (send_command (startup_connected false false false) false none "list").result =
      PyResult.err "Not connected to Minecraft server" := by decide

/-- C3, amended: after `startup` from the initial state the connection flag
equals (on-Windows OR tmux-session-found) — not unconditionally true — and a
send while the flag is unset fails the not-connected precondition without any
external call; on the disabled (Windows) platform branch, send performs no
external call and returns the fixed logged-mode acknowledgement string. -/
theorem C3_startup_connection (w t : Bool) (terr : Option String) (cmd : String) :
    startup_connected w t false = (w || t) ∧
    (send_command false w terr cmd).result = PyResult.err "Not connected to Minecraft server" ∧
    (send_command false w terr cmd).tmuxCalls = 0 ∧
    (send_command true true terr cmd).tmuxCalls = 0 ∧
    (send_command true true terr cmd).result =
      PyResult.ok "Command logged (Windows development mode)" := by
  refine ⟨?_, ?_, ?_, ?_, ?_⟩ <;> cases w <;> cases t <;>
    simp [startup_connected, send_command]

/-- C2, counterexample to the claim as stated: on the whitespace-only line
`" "`, splitting yields no tokens, yet the loop body is not a no-op — the
`if not command` guard only catches the empty string, so `command.split()[0]`
raises IndexError, which the catch-all turns into a generic failure notice. -/
theorem C2_counterexample :
    pySplit " " = [] ∧
    dispatch ["help", "exit"] " " = DispatchResult.errored ∧
    DispatchResult.errored ≠ DispatchResult.noop := by decide

/-- C2, amended: the loop body is a no-op exactly on the empty line; on a
nonempty line whose whitespace split yields no tokens it raises (caught by the
catch-all as a generic error), and otherwise the first token selects either
the registered handler — invoked with the entire original line — or the
unknown-command notice. -/
theorem C2_dispatch_behavior (registered : List String) (command : String) :
    (dispatch registered command = DispatchResult.noop ↔ command = "") ∧
    (command ≠ "" → pySplit command = [] →
      dispatch registered command = DispatchResult.errored) ∧
    (∀ name rest, pySplit command = name :: rest →
      dispatch registered command =
        if registered.contains name then DispatchResult.handled name command
        else DispatchResult.unknown name) := by
  refine ⟨?_, ?_, ?_⟩
  · by_cases h : command = ""
    · simp [dispatch, h]
    · rcases hp : pySplit command with _ | ⟨n, r⟩
      · simp [dispatch, h, hp]
      · simp only [dispatch, beq_iff_eq, if_neg h, hp]
        split <;> simp [h]
  · intro h hp
    simp [dispatch, h, hp]
  · intro name rest hp
    by_cases h : command = ""
    · rw [h] at hp; simp [pySplit, pyWordsAux] at hp
    · simp [dispatch, h, hp]

/-- C2 witness: the amended dispatch behavior at concrete inputs. -/
theorem C2_witness :
    dispatch ["tp", "help"] "tp steve home" = DispatchResult.handled "tp" "tp steve home" := by
  have h := (C2_dispatch_behavior ["tp", "help"] "tp steve home").2.2 "tp" ["steve", "home"]
    (by decide)
  simpa using h

/-- C7: `namedpos add home 100 64 200` stores the row `(home, "100 64 200")`
and persists it, and a following `tp steve home` resolves `home` through the
Named Position Store and sends exactly `tp steve 100 64 200`, whatever the
transport outcome. -/
theorem C7_named_position_roundtrip (sendRes : Nat → PyResult) :
    (namedpos_command ⟨none, none, some []⟩ "namedpos add home 100 64 200").state.named_pos_df =
      some [⟨"home", "100 64 200"⟩] ∧
    (namedpos_command ⟨none, none, some []⟩ "namedpos add home 100 64 200").dbWrites =
      [DbWrite.insertNamedPos "home" "100 64 200"] ∧
    (tp_command (namedpos_command ⟨none, none, some []⟩ "namedpos add home 100 64 200").state
      sendRes "tp steve home").sends = ["tp steve 100 64 200"] := by
  refine ⟨by decide, by decide, ?_⟩
  show (sendReport _ sendRes [] (tpCmdStr "steve" "100 64 200")
    "Error teleporting player: ").sends = _
  rw [sendReport_sends]
  decide

/-- C10: with the Reference Catalog absent (`resources_df = None`), give,
enchant and effect skip every validation, suggestion and numeric
default/clamp step: any line with enough tokens is rebuilt verbatim from the
tokens typed by the user (with the usual positional defaults) and sent. -/
theorem C10_no_catalog_verbatim
    (st : ServerState) (sendRes : Nat → PyResult)
    (l1 l2 l3 player item ench eff : String)
    (restG restE restF : List String)
    (hdf : st.resources_df = none)
    (hs1 : pySplit l1 = "give" :: player :: item :: restG)
    (hs2 : pySplit l2 = "enchant" :: player :: ench :: restE)
    (hs3 : pySplit l3 = "effect" :: player :: eff :: restF) :
    (give_command st sendRes l1).sends = [giveCmdStr player item (restG.headD "1")] ∧
    (enchant_command st sendRes l2).sends = [enchantCmdStr player ench (restE.headD "1")] ∧
    (effect_command st sendRes l3).sends =
      [effectCmdStr player eff (restF.getD 0 "30") (restF.getD 1 "0") (restF.getD 2 "true")] := by
  refine ⟨?_, ?_, ?_⟩
  · simp [give_command, hs1, hdf, sendReport_sends]
  · simp [enchant_command, hs2, hdf, sendReport_sends]
  · simp [effect_command, hs3, hdf, sendReport_sends]

/-- C10 witness: concrete runs without a catalog relay the tokens verbatim. -/
theorem C10_witness :
    (give_command ⟨none, none, none⟩ allOk "give steve notanitem 99").sends =
      ["give steve notanitem 99"] ∧
    (enchant_command ⟨none, none, none⟩ allOk "enchant steve bogus_enchant abc").sends =
      ["enchant steve bogus_enchant abc"] ∧
    (effect_command ⟨none, none, none⟩ allOk "effect steve bogus -7").sends =
      ["effect steve bogus -7 0 true"] := by
  have h := C10_no_catalog_verbatim ⟨none, none, none⟩ allOk
    "give steve notanitem 99" "enchant steve bogus_enchant abc" "effect steve bogus -7"
    "steve" "notanitem" "bogus_enchant" "bogus" ["99"] ["abc"] ["-7"]
    (by decide) (by decide) (by decide) (by decide)
  exact ⟨by rw [h.1]; decide, by rw [h.2.1]; decide, by rw [h.2.2]; decide⟩

/-! Lemmas for the capped suggestion collection. -/

lemma collectCapped_eq_take {α : Type} (f : ResourceRow → Option α) (cap : Nat)
    (l : List ResourceRow) (hcap : 1 ≤ cap) :
    collectCapped f cap l = (l.filterMap f).take cap := by
  induction l generalizing cap with
  | nil => simp [collectCapped]
  | cons r rs ih =>
    simp only [collectCapped, List.filterMap_cons]
    cases hf : f r with
    | none => exact ih cap hcap
    | some a =>
      by_cases h1 : cap ≤ 1
      · have hc1 : cap = 1 := le_antisymm h1 hcap
        subst hc1
        simp
      · have h2 : 1 ≤ cap - 1 := by omega
        have hsucc : cap = (cap - 1) + 1 := by omega
        simp only [if_neg h1, ih (cap - 1) h2]
        rw [hsucc, List.take_succ_cons]
        simp

lemma filterMap_ite {α : Type} (p : ResourceRow → Bool) (g : ResourceRow → α)
    (l : List ResourceRow) :
    l.filterMap (fun r => if p r then some (g r) else none) = (l.filter p).map g := by
  induction l with
  | nil => rfl
  | cons r rs ih => by_cases hp : p r <;> simp [hp, ih]

/-- C5: on an exact-match miss, each suggestion list is precisely the first
five (at most) substring matches of the category subset in catalog iteration
order; its length never exceeds 5 and it is empty exactly when no id of the
category contains the token. -/
theorem C5_suggestion_collection (tok : String) (df : List ResourceRow) :
    (giveSuggestions tok df =
        (((df.filter giveCatRow).filter
            (fun r => strContainsSub (lowerStr r.resource_location) (lowerStr tok))).map
          (fun r => (r.resource_location, r.name, pyCapitalize r.resource_type))).take 5 ∧
      (giveSuggestions tok df).length ≤ 5 ∧
      (giveSuggestions tok df = [] ↔
        ∀ r ∈ df, giveCatRow r = true →
          strContainsSub (lowerStr r.resource_location) (lowerStr tok) = false)) ∧
    (enchantSuggestions tok df =
        (((df.filter enchantCatRow).filter
            (fun r => strContainsSub (lowerStr r.resource_location) (lowerStr tok))).map
          (fun r => (r.resource_location, r.name, orOne r.enchantment_max_level))).take 5 ∧
      (enchantSuggestions tok df).length ≤ 5 ∧
      (enchantSuggestions tok df = [] ↔
        ∀ r ∈ df, enchantCatRow r = true →
          strContainsSub (lowerStr r.resource_location) (lowerStr tok) = false)) ∧
    (effectSuggestions tok df =
        (((df.filter effectCatRow).filter
            (fun r => strContainsSub (lowerStr r.resource_location) (lowerStr tok))).map
          (fun r => (r.resource_location, r.name))).take 5 ∧
      (effectSuggestions tok df).length ≤ 5 ∧
      (effectSuggestions tok df = [] ↔
        ∀ r ∈ df, effectCatRow r = true →
          strContainsSub (lowerStr r.resource_location) (lowerStr tok) = false)) := by
  have hg : giveSuggestions tok df =
      (((df.filter giveCatRow).filter
          (fun r => strContainsSub (lowerStr r.resource_location) (lowerStr tok))).map
        (fun r => (r.resource_location, r.name, pyCapitalize r.resource_type))).take 5 := by
    rw [giveSuggestions, collectCapped_eq_take _ _ _ (by norm_num),
      show giveSuggestionRow tok = fun r =>
        if strContainsSub (lowerStr r.resource_location) (lowerStr tok) then
          some (r.resource_location, r.name, pyCapitalize r.resource_type)
        else none from rfl, filterMap_ite]
  have he : enchantSuggestions tok df =
      (((df.filter enchantCatRow).filter
          (fun r => strContainsSub (lowerStr r.resource_location) (lowerStr tok))).map
        (fun r => (r.resource_location, r.name, orOne r.enchantment_max_level))).take 5 := by
    rw [enchantSuggestions, collectCapped_eq_take _ _ _ (by norm_num),
      show enchantSuggestionRow tok = fun r =>
        if strContainsSub (lowerStr r.resource_location) (lowerStr tok) then
          some (r.resource_location, r.name, orOne r.enchantment_max_level)
        else none from rfl, filterMap_ite]
  have hf : effectSuggestions tok df =
      (((df.filter effectCatRow).filter
          (fun r => strContainsSub (lowerStr r.resource_location) (lowerStr tok))).map
        (fun r => (r.resource_location, r.name))).take 5 := by
    rw [effectSuggestions, collectCapped_eq_take _ _ _ (by norm_num),
      show effectSuggestionRow tok = fun r =>
        if strContainsSub (lowerStr r.resource_location) (lowerStr tok) then
          some (r.resource_location, r.name)
        else none from rfl, filterMap_ite]
  refine ⟨⟨hg, ?_, ?_⟩, ⟨he, ?_, ?_⟩, ⟨hf, ?_, ?_⟩⟩ <;>
    simp only [hg, he, hf] <;>
    simp [List.length_take, List.take_eq_nil_iff, List.filter_eq_nil_iff, List.mem_filter,
      min_le_iff]
  all_goals
    constructor
    · intro h r hr hcat
      by_contra hs
      rw [Bool.not_eq_false] at hs
      have h2 := h r hr hs
      rw [hcat] at h2
      simp at h2
    · intro h r hr hs
      by_contra hc
      rw [Bool.not_eq_false] at hc
      have h2 := h r hr hc
      rw [hs] at h2
      simp at h2

/-! Lemmas for exact resolution and canonical casing. -/

lemma find?_of_unique {α : Type} (p : α → Bool) {l : List α} {a : α}
    (ha : a ∈ l) (hpa : p a = true) (huniq : ∀ b ∈ l, p b = true → b = a) :
    l.find? p = some a := by
  induction l with
  | nil => cases ha
  | cons b bs ih =>
    by_cases hpb : p b
    · have hb : b = a := huniq b (List.mem_cons_self b bs) hpb
      rw [List.find?_cons_of_pos _ hpb, hb]
    · rcases List.mem_cons.mp ha with rfl | hmem
      · rw [hpa] at hpb; exact absurd rfl hpb
      · rw [List.find?_cons_of_neg _ hpb]
        exact ih hmem (fun c hc hpc => huniq c (List.mem_cons_of_mem b hc) hpc)

lemma toString_self (s : String) : toString s = s := rfl

lemma subOf_append_right (n suf : List Char) : subOf n (n ++ suf) = true := by
  cases n with
  | nil => cases suf <;> simp [subOf, List.isPrefixOf]
  | cons c cs =>
    have h : (c :: cs).isPrefixOf (c :: cs ++ suf) = true := by
      rw [List.isPrefixOf_iff_prefix]
      exact List.prefix_append _ _
    simp [subOf, h]

lemma subOf_extend (n pre l : List Char) (h : subOf n l = true) :
    subOf n (pre ++ l) = true := by
  induction pre with
  | nil => simpa using h
  | cons c cs ih => simp [subOf, ih]

lemma strContainsSub_of_data (s mid : String) (pre suf : List Char)
    (h : s.data = pre ++ (mid.data ++ suf)) : strContainsSub s mid = true := by
  rw [strContainsSub, h]
  exact subOf_extend _ _ _ (subOf_append_right _ _)

lemma strContainsSub_giveCmd (p i q : String) :
    strContainsSub (giveCmdStr p i q) i = true := by
  refine strContainsSub_of_data _ _ ("give ".data ++ (p.data ++ " ".data))
    (" ".data ++ q.data) ?_
  simp [giveCmdStr, toString_self, String.data_append]

lemma strContainsSub_enchantCmd (p e lv : String) :
    strContainsSub (enchantCmdStr p e lv) e = true := by
  refine strContainsSub_of_data _ _ ("enchant ".data ++ (p.data ++ " ".data))
    (" ".data ++ lv.data) ?_
  simp [enchantCmdStr, toString_self, String.data_append]

lemma strContainsSub_effectCmd (p e sec amp hp : String) :
    strContainsSub (effectCmdStr p e sec amp hp) e = true := by
  refine strContainsSub_of_data _ _ ("effect ".data ++ (p.data ++ " ".data))
    (" ".data ++ (sec.data ++ (" ".data ++ (amp.data ++ (" ".data ++ hp.data))))) ?_
  simp [effectCmdStr, toString_self, String.data_append]

lemma validatedLevel_one (m : Nat) (hm : 1 ≤ m) : validatedLevel "1" m = ("1", []) := by
  have h1 : pyInt? "1" = some 1 := by decide
  rw [validatedLevel, h1]
  have hcond : ¬((1 : Int) < 1 ∨ (1 : Int) > (m : Int)) := by
    push_neg
    refine ⟨le_refl _, ?_⟩
    exact_mod_cast hm
  simp [hcond]
  omega

/-- C4: for every catalog entry of the target category, a token equal to its
id up to case resolves in give/enchant/effect, and the outbound command is
built from — and contains — the canonically-cased catalog id, whatever
casing the user typed. -/
theorem C4_canonical_casing
    (st : ServerState) (sendRes : Nat → PyResult) (df : List ResourceRow)
    (player l1 l2 l3 ti te tf : String) (Ei Ee Ef : ResourceRow) (restG : List String)
    (hdf : st.resources_df = some df)
    (hs1 : pySplit l1 = "give" :: player :: ti :: restG)
    (hEi : Ei ∈ df) (hcatI : giveCatRow Ei = true)
    (htokI : lowerStr ti = lowerStr Ei.resource_location)
    (huniqI : ∀ r ∈ df, giveMatch ti r = true → r = Ei)
    (hs2 : pySplit l2 = ["enchant", player, te])
    (hEe : Ee ∈ df) (hcatE : enchantCatRow Ee = true)
    (htokE : lowerStr te = lowerStr Ee.resource_location)
    (huniqE : ∀ r ∈ df, enchantMatch te r = true → r = Ee)
    (hs3 : pySplit l3 = ["effect", player, tf])
    (hEf : Ef ∈ df) (hcatF : effectCatRow Ef = true)
    (htokF : lowerStr tf = lowerStr Ef.resource_location)
    (huniqF : ∀ r ∈ df, effectMatch tf r = true → r = Ef) :
    ((give_command st sendRes l1).sends =
        [giveCmdStr player Ei.resource_location (restG.headD "1")] ∧
      strContainsSub (giveCmdStr player Ei.resource_location (restG.headD "1"))
        Ei.resource_location = true) ∧
    ((enchant_command st sendRes l2).sends =
        [enchantCmdStr player Ee.resource_location "1"] ∧
      strContainsSub (enchantCmdStr player Ee.resource_location "1")
        Ee.resource_location = true) ∧
    ((effect_command st sendRes l3).sends =
        [effectCmdStr player Ef.resource_location "30" "0" "true"] ∧
      strContainsSub (effectCmdStr player Ef.resource_location "30" "0" "true")
        Ef.resource_location = true) := by
  have hfI : df.find? (giveMatch ti) = some Ei := by
    refine find?_of_unique _ hEi ?_ huniqI
    simp [giveMatch, hcatI, ← htokI]
  have hfE : df.find? (enchantMatch te) = some Ee := by
    refine find?_of_unique _ hEe ?_ huniqE
    simp [enchantMatch, hcatE, ← htokE]
  have hfF : df.find? (effectMatch tf) = some Ef := by
    refine find?_of_unique _ hEf ?_ huniqF
    simp [effectMatch, hcatF, ← htokF]
  refine ⟨⟨?_, strContainsSub_giveCmd ..⟩, ⟨?_, strContainsSub_enchantCmd ..⟩,
    ⟨?_, strContainsSub_effectCmd ..⟩⟩
  · simp [give_command, hs1, hdf, hfI, sendReport_sends]
  · simp [enchant_command, hs2, hdf, hfE, sendReport_sends,
      validatedLevel_one _ (orOne_pos _)]
  · simp [effect_command, hs3, hdf, hfF, sendReport_sends,
      show validatedSeconds "30" = ("30", []) from by decide,
      show validatedAmplifier "0" = ("0", []) from by decide]

/-- C4 witness: a mixed-case token resolves to the canonically-cased id on a
concrete catalog. -/
theorem C4_witness :
    (give_command ⟨some [⟨"item", "Diamond_Sword", "Diamond Sword", none, none⟩,
        ⟨"enchantment", "Sharpness", "Sharpness", some 5, some "sword"⟩,
        ⟨"effect", "Speed", "Speed", none, none⟩], none, none⟩ allOk
      "give steve dIaMoNd_SwOrD").sends = ["give steve Diamond_Sword 1"] ∧
    (enchant_command ⟨some [⟨"item", "Diamond_Sword", "Diamond Sword", none, none⟩,
        ⟨"enchantment", "Sharpness", "Sharpness", some 5, some "sword"⟩,
        ⟨"effect", "Speed", "Speed", none, none⟩], none, none⟩ allOk
      "enchant steve SHARPNESS").sends = ["enchant steve Sharpness 1"] ∧
    (effect_command ⟨some [⟨"item", "Diamond_Sword", "Diamond Sword", none, none⟩,
        ⟨"enchantment", "Sharpness", "Sharpness", some 5, some "sword"⟩,
        ⟨"effect", "Speed", "Speed", none, none⟩], none, none⟩ allOk
      "effect steve speed").sends = ["effect steve Speed 30 0 true"] := by
  have h := C4_canonical_casing
    ⟨some [⟨"item", "Diamond_Sword", "Diamond Sword", none, none⟩,
      ⟨"enchantment", "Sharpness", "Sharpness", some 5, some "sword"⟩,
      ⟨"effect", "Speed", "Speed", none, none⟩], none, none⟩ allOk
    [⟨"item", "Diamond_Sword", "Diamond Sword", none, none⟩,
      ⟨"enchantment", "Sharpness", "Sharpness", some 5, some "sword"⟩,
      ⟨"effect", "Speed", "Speed", none, none⟩]
    "steve" "give steve dIaMoNd_SwOrD" "enchant steve SHARPNESS" "effect steve speed"
    "dIaMoNd_SwOrD" "SHARPNESS" "speed"
    ⟨"item", "Diamond_Sword", "Diamond Sword", none, none⟩
    ⟨"enchantment", "Sharpness", "Sharpness", some 5, some "sword"⟩
    ⟨"effect", "Speed", "Speed", none, none⟩ []
    rfl (by decide) (by decide) (by decide) (by decide) (by decide)
    (by decide) (by decide) (by decide) (by decide) (by decide)
    (by decide) (by decide) (by decide) (by decide) (by decide)
  refine ⟨?_, ?_, ?_⟩
  · rw [h.1.1]; decide
  · rw [h.2.1.1]; decide
  · rw [h.2.2.1]; decide

/-- C6: with a resolved resource, enchant/effect numeric arguments are never
a reason to abort: the command is always sent with the validated value; a
non-integer argument becomes its documented default (level 1, duration 30,
amplifier 0) with a warning; an integer level is clamped into
`[1, max_level]`, an amplifier into `[0, 255]`, and a duration below 1 is
raised to 1, each with a warning, while in-range values pass through
unchanged. -/
theorem C6_numeric_coercion
    (st : ServerState) (sendRes : Nat → PyResult) (df : List ResourceRow)
    (player l2 l3 te tf lvl sec amp hide : String) (Ee Ef : ResourceRow)
    (hdf : st.resources_df = some df)
    (hs2 : pySplit l2 = ["enchant", player, te, lvl])
    (hfindE : df.find? (enchantMatch te) = some Ee)
    (hs3 : pySplit l3 = ["effect", player, tf, sec, amp, hide])
    (hfindF : df.find? (effectMatch tf) = some Ef) :
    (enchant_command st sendRes l2).sends =
      [enchantCmdStr player Ee.resource_location
        (validatedLevel lvl (orOne Ee.enchantment_max_level)).1] ∧
    (effect_command st sendRes l3).sends =
      [effectCmdStr player Ef.resource_location
        (validatedSeconds sec).1 (validatedAmplifier amp).1 hide] ∧
    (pyInt? lvl = none →
      validatedLevel lvl (orOne Ee.enchantment_max_level) =
        ("1", ["[yellow]Invalid level, using 1"])) ∧
    (pyInt? sec = none →
      validatedSeconds sec = ("30", ["[yellow]Invalid duration, using 30 seconds"])) ∧
    (pyInt? amp = none →
      validatedAmplifier amp = ("0", ["[yellow]Invalid amplifier, using 0"])) ∧
    (∀ n : Int, pyInt? lvl = some n →
      (n < 1 ∨ (orOne Ee.enchantment_max_level : Int) < n) →
      (validatedLevel lvl (orOne Ee.enchantment_max_level)).1 =
          toString (min (max 1 n) (orOne Ee.enchantment_max_level : Int)) ∧
        1 ≤ min (max 1 n) (orOne Ee.enchantment_max_level : Int) ∧
        min (max 1 n) (orOne Ee.enchantment_max_level : Int) ≤
          (orOne Ee.enchantment_max_level : Int) ∧
        (validatedLevel lvl (orOne Ee.enchantment_max_level)).2 ≠ []) ∧
    (∀ n : Int, pyInt? lvl = some n → 1 ≤ n →
      n ≤ (orOne Ee.enchantment_max_level : Int) →
      validatedLevel lvl (orOne Ee.enchantment_max_level) = (lvl, [])) ∧
    (∀ n : Int, pyInt? sec = some n → n < 1 →
      validatedSeconds sec =
        ("1", ["[yellow]Warning: Duration must be at least 1 second"])) ∧
    (∀ n : Int, pyInt? sec = some n → 1 ≤ n → validatedSeconds sec = (sec, [])) ∧
    (∀ n : Int, pyInt? amp = some n → (n < 0 ∨ 255 < n) →
      (validatedAmplifier amp).1 = toString (min (max 0 n) 255) ∧
        0 ≤ min (max 0 n) (255 : Int) ∧ min (max 0 n) (255 : Int) ≤ 255 ∧
        (validatedAmplifier amp).2 ≠ []) ∧
    (∀ n : Int, pyInt? amp = some n → 0 ≤ n → n ≤ 255 →
      validatedAmplifier amp = (amp, [])) := by
  have hm : 1 ≤ (orOne Ee.enchantment_max_level : Int) := by
    exact_mod_cast orOne_pos Ee.enchantment_max_level
  refine ⟨?_, ?_, ?_, ?_, ?_, ?_, ?_, ?_, ?_, ?_, ?_⟩
  · simp [enchant_command, hs2, hdf, hfindE, sendReport_sends]
  · simp [effect_command, hs3, hdf, hfindF, sendReport_sends]
  · intro h; simp [validatedLevel, h]
  · intro h; simp [validatedSeconds, h]
  · intro h; simp [validatedAmplifier, h]
  · intro n hn hrange
    have hv1 : (validatedLevel lvl (orOne Ee.enchantment_max_level)).1 =
        toString (min (max 1 n) (orOne Ee.enchantment_max_level : Int)) := by
      rcases hrange with h | h <;> simp [validatedLevel, hn, h]
    have hv2 : (validatedLevel lvl (orOne Ee.enchantment_max_level)).2 ≠ [] := by
      rcases hrange with h | h <;> simp [validatedLevel, hn, h]
    exact ⟨hv1, by omega, by omega, hv2⟩
  · intro n hn h1 h2
    have hc : ¬(n < 1 ∨ n > (orOne Ee.enchantment_max_level : Int)) := by omega
    simp [validatedLevel, hn, hc]
  · intro n hn h1
    simp [validatedSeconds, hn, h1]
  · intro n hn h1
    have hc : ¬(n < 1) := by omega
    simp [validatedSeconds, hn, hc]
  · intro n hn hrange
    have hv1 : (validatedAmplifier amp).1 = toString (min (max 0 n) 255) := by
      rcases hrange with h | h <;> simp [validatedAmplifier, hn, h]
    have hv2 : (validatedAmplifier amp).2 ≠ [] := by
      rcases hrange with h | h <;> simp [validatedAmplifier, hn, h]
    exact ⟨hv1, by omega, by omega, hv2⟩
  · intro n hn h1 h2
    have hc : ¬(n < 0 ∨ n > (255 : Int)) := by omega
    simp [validatedAmplifier, hn, hc]

/-- C6 witness: a low out-of-range level is clamped to 1, a non-integer
duration falls back to 30 and a high amplifier is clamped to 255, and the
commands are still sent. -/
theorem C6_witness :
    (enchant_command ⟨some [⟨"enchantment", "Sharpness", "Sharpness", some 5, none⟩,
        ⟨"effect", "Speed", "Speed", none, none⟩], none, none⟩ allOk
      "enchant steve sharpness 0").sends = ["enchant steve Sharpness 1"] ∧
    (effect_command ⟨some [⟨"enchantment", "Sharpness", "Sharpness", some 5, none⟩,
        ⟨"effect", "Speed", "Speed", none, none⟩], none, none⟩ allOk
      "effect steve speed abc 999 false").sends =
      ["effect steve Speed 30 255 false"] := by
  have h := C6_numeric_coercion
    ⟨some [⟨"enchantment", "Sharpness", "Sharpness", some 5, none⟩,
      ⟨"effect", "Speed", "Speed", none, none⟩], none, none⟩ allOk
    [⟨"enchantment", "Sharpness", "Sharpness", some 5, none⟩,
      ⟨"effect", "Speed", "Speed", none, none⟩]
    "steve" "enchant steve sharpness 0" "effect steve speed abc 999 false"
    "sharpness" "speed" "0" "abc" "999" "false"
    ⟨"enchantment", "Sharpness", "Sharpness", some 5, none⟩
    ⟨"effect", "Speed", "Speed", none, none⟩
    rfl (by decide) (by decide) (by decide) (by decide)
  exact ⟨by rw [h.1]; decide, by rw [h.2.1]; decide⟩

/-! Lemmas about the maxenchant loop. -/

lemma maxenchantLoop_fst (f : Nat → PyResult) (p : String) (i : Nat)
    (l : List MatchingEnchant) :
    (maxenchantLoop f p i l).1 =
      l.map (fun e => enchantCmdStr p e.id (toString e.max_level)) := by
  induction l generalizing i with
  | nil => rfl
  | cons e es ih => simp [maxenchantLoop, ih]

lemma maxenchantLoop_snd_length (f : Nat → PyResult) (p : String) (i : Nat)
    (l : List MatchingEnchant) :
    (maxenchantLoop f p i l).2.length = l.length := by
  induction l generalizing i with
  | nil => rfl
  | cons e es ih => simp [maxenchantLoop, ih]

lemma maxenchantLoop_snd_getD (f : Nat → PyResult) (p : String)
    (l : List MatchingEnchant) :
    ∀ i j, j < l.length →
      (maxenchantLoop f p i l).2.getD j "" =
        reportStr (f (i + j)) (l.getD j ⟨"", "", 0⟩) := by
  induction l with
  | nil => intro i j hj; simp at hj
  | cons e es ih =>
    intro i j hj
    cases j with
    | zero => simp [maxenchantLoop]
    | succ j' =>
      simp only [maxenchantLoop, List.getD_cons_succ]
      rw [ih (i + 1) j' (by simpa using hj)]
      congr 2
      omega

/-- C8: maxenchant issues exactly one transport call per catalog enchantment
matching the item-type tag (or the sentinel "any"), at its max level; the
sends are the full map over the matching list for every transport oracle, so
an individual failure never stops the loop, and the `j`-th report line
depends only on the `j`-th outcome. -/
theorem C8_maxenchant_per_enchant_calls
    (st : ServerState) (sendRes : Nat → PyResult) (df : List ResourceRow)
    (line itemtype player : String)
    (hdf : st.resources_df = some df)
    (hs : pySplit line = ["maxenchant", itemtype, player])
    (hne : matchingEnchants itemtype df ≠ []) :
    (maxenchant_command st sendRes line).sends =
      (matchingEnchants itemtype df).map
        (fun e => enchantCmdStr player e.id (toString e.max_level)) ∧
    (maxenchant_command st sendRes line).prints.length =
      (matchingEnchants itemtype df).length + 2 ∧
    (∀ j, j < (matchingEnchants itemtype df).length →
      (maxenchant_command st sendRes line).prints.getD (j + 1) "" =
        reportStr (sendRes j) ((matchingEnchants itemtype df).getD j ⟨"", "", 0⟩)) := by
  have hbool : (matchingEnchants itemtype df).isEmpty = false :=
    List.isEmpty_eq_false.mpr hne
  refine ⟨?_, ?_, ?_⟩
  · simp [maxenchant_command, hs, hdf, hbool, joinSep, maxenchantLoop_fst]
  · simp [maxenchant_command, hs, hdf, hbool, joinSep, maxenchantLoop_snd_length]
  · intro j hj
    simp only [maxenchant_command, hs, hdf, hbool, joinSep, List.length_cons,
      List.length_nil, Bool.false_eq_true, if_false, List.drop_succ_cons, List.drop_zero,
      List.dropLast_cons₂, List.dropLast_single, List.getLastD_cons]
    norm_num
    simp only [← List.getD_eq_getElem?_getD]
    rw [List.getD_append (maxenchantLoop sendRes player 0 (matchingEnchants itemtype df)).2
        ["[green]Finished applying enchantments!"] "" j
        (by rw [maxenchantLoop_snd_length]; exact hj),
      maxenchantLoop_snd_getD _ _ _ 0 j hj]
    simp

/-- C8 witness: two matching enchantments, the second transport call failing —
still exactly two sends, with independent success/failure report lines. -/
theorem C8_witness :
    (maxenchant_command ⟨some [⟨"enchantment", "Sharpness", "Sharpness", some 5, some "sword, axe"⟩,
        ⟨"enchantment", "Unbreaking", "Unbreaking", some 3, some "any"⟩], none, none⟩
      (fun i => if i == 0 then .ok "Command sent successfully" else .err "boom")
      "maxenchant sword steve").sends =
      ["enchant steve Sharpness 5", "enchant steve Unbreaking 3"] ∧
    (maxenchant_command ⟨some [⟨"enchantment", "Sharpness", "Sharpness", some 5, some "sword, axe"⟩,
        ⟨"enchantment", "Unbreaking", "Unbreaking", some 3, some "any"⟩], none, none⟩
      (fun i => if i == 0 then .ok "Command sent successfully" else .err "boom")
      "maxenchant sword steve").prints.getD 1 "" =
      "[green]Sharpness (Level 5): Command sent successfully" ∧
    (maxenchant_command ⟨some [⟨"enchantment", "Sharpness", "Sharpness", some 5, some "sword, axe"⟩,
        ⟨"enchantment", "Unbreaking", "Unbreaking", some 3, some "any"⟩], none, none⟩
      (fun i => if i == 0 then .ok "Command sent successfully" else .err "boom")
      "maxenchant sword steve").prints.getD 2 "" =
      "[red]Failed to apply Unbreaking: boom" := by
  have h := C8_maxenchant_per_enchant_calls
    ⟨some [⟨"enchantment", "Sharpness", "Sharpness", some 5, some "sword, axe"⟩,
      ⟨"enchantment", "Unbreaking", "Unbreaking", some 3, some "any"⟩], none, none⟩
    (fun i => if i == 0 then .ok "Command sent successfully" else .err "boom")
    [⟨"enchantment", "Sharpness", "Sharpness", some 5, some "sword, axe"⟩,
      ⟨"enchantment", "Unbreaking", "Unbreaking", some 3, some "any"⟩]
    "maxenchant sword steve" "sword" "steve"
    rfl (by decide) (by decide)
  refine ⟨?_, ?_, ?_⟩
  · rw [h.1]; decide
  · rw [h.2.2 0 (by decide)]; decide
  · rw [h.2.2 1 (by decide)]; decide

/-! Lemmas about the code-point order and the Python sort. -/

lemma strLeChars_cons_le {a b : Char} {as bs : List Char}
    (h : strLeChars (a :: as) (b :: bs) = true) : a.toNat ≤ b.toNat := by
  by_contra hlt
  push_neg at hlt
  have h1 : ¬a.toNat < b.toNat := by omega
  simp [strLeChars, h1, hlt] at h

lemma strLeChars_total (as bs : List Char) :
    (strLeChars as bs || strLeChars bs as) = true := by
  induction as generalizing bs with
  | nil => simp [strLeChars]
  | cons a as ih =>
    cases bs with
    | nil => simp [strLeChars]
    | cons b bs' =>
      simp only [strLeChars]
      rcases Nat.lt_trichotomy a.toNat b.toNat with h | h | h
      · simp [h]
      · have h1 : ¬a.toNat < b.toNat := by omega
        have h2 : ¬b.toNat < a.toNat := by omega
        simpa [h1, h2] using ih bs'
      · have h1 : ¬a.toNat < b.toNat := by omega
        simp [h1, h]

lemma strLeChars_trans (as bs cs : List Char) (h1 : strLeChars as bs = true)
    (h2 : strLeChars bs cs = true) : strLeChars as cs = true := by
  induction as generalizing bs cs with
  | nil => simp [strLeChars]
  | cons a as ih =>
    cases bs with
    | nil => simp [strLeChars] at h1
    | cons b bs' =>
      cases cs with
      | nil => simp [strLeChars] at h2
      | cons c cs' =>
        have hab := strLeChars_cons_le h1
        have hbc := strLeChars_cons_le h2
        by_cases hac : a.toNat < c.toNat
        · simp [strLeChars, hac]
        · have hab0 : a.toNat = b.toNat := by omega
          have hbc0 : b.toNat = c.toNat := by omega
          have hirr : ¬a.toNat < c.toNat := by omega
          have hirr2 : ¬c.toNat < a.toNat := by omega
          rw [strLeChars.eq_def] at h1 h2
          simp only [hab0, hbc0, Nat.lt_irrefl, if_neg (Nat.lt_irrefl _)] at h1 h2
          simp only [strLeChars, if_neg hirr, if_neg hirr2]
          exact ih bs' cs' h1 h2

lemma strLe_total (a b : String) : (strLe a b || strLe b a) = true :=
  strLeChars_total a.data b.data

lemma strLe_trans {a b c : String} (h1 : strLe a b = true) (h2 : strLe b c = true) :
    strLe a c = true :=
  strLeChars_trans a.data b.data c.data h1 h2

lemma insertSorted_perm (a : String) (l : List String) :
    (insertSorted a l).Perm (a :: l) := by
  induction l with
  | nil => exact List.Perm.refl _
  | cons b bs ih =>
    by_cases h : strLe a b = true
    · simp [insertSorted, h]
    · simp only [insertSorted, if_neg h]
      exact (ih.cons b).trans (List.Perm.swap a b bs)

lemma pySorted_perm (l : List String) : (pySorted l).Perm l := by
  induction l with
  | nil => exact List.Perm.nil
  | cons a as ih => exact (insertSorted_perm a (pySorted as)).trans (ih.cons a)

lemma pairwise_insertSorted (a : String) (l : List String)
    (hl : l.Pairwise (fun x y => strLe x y = true)) :
    (insertSorted a l).Pairwise (fun x y => strLe x y = true) := by
  induction l with
  | nil => simp [insertSorted]
  | cons b bs ih =>
    obtain ⟨hb, hbs⟩ := List.pairwise_cons.mp hl
    by_cases h : strLe a b = true
    · simp only [insertSorted, if_pos h]
      refine List.pairwise_cons.mpr ⟨?_, hl⟩
      intro x hx
      rcases List.mem_cons.mp hx with rfl | hx'
      · exact h
      · exact strLe_trans h (hb x hx')
    · have hba : strLe b a = true := by
        cases hsab : strLe a b with
        | true => exact absurd hsab h
        | false => simpa [hsab] using strLe_total a b
      simp only [insertSorted, if_neg h]
      refine List.pairwise_cons.mpr ⟨?_, ih hbs⟩
      intro x hx
      have hx' := (insertSorted_perm a bs).mem_iff.mp hx
      rcases List.mem_cons.mp hx' with rfl | hxx
      · exact hba
      · exact hb x hxx

lemma pySorted_pairwise (l : List String) :
    (pySorted l).Pairwise (fun x y => strLe x y = true) := by
  induction l with
  | nil => simp [pySorted]
  | cons a as ih => exact pairwise_insertSorted a (pySorted as) ih

lemma parsePlayers_nodup (v : String) : (parsePlayers v).Nodup := by
  rw [parsePlayers]
  split
  · exact List.nodup_nil
  · exact List.nodup_dedup _

/-- C9: a duplicate `player add` reports the name is already in the list and
leaves both the in-memory settings and the database untouched; every
successful add or del persists the players setting as the comma-joined,
de-duplicated (strictly sorted, hence duplicate-free), sorted set. -/
theorem C9_player_set_invariants
    (st : ServerState) (settings : List SettingRow) (row : SettingRow)
    (lineA lineB lineC nameA nameB nameC : String)
    (hset : st.settings_df = some settings)
    (hfind : settings.find? (fun r => r.setting == "players") = some row)
    (hsA : pySplit lineA = ["player", "add", nameA])
    (hmemA : nameA ∈ parsePlayers row.value)
    (hsB : pySplit lineB = ["player", "add", nameB])
    (hmemB : nameB ∉ parsePlayers row.value)
    (hsC : pySplit lineC = ["player", "del", nameC])
    (hmemC : nameC ∈ parsePlayers row.value) :
    player_command st lineA =
      rejectWith st [s!"[yellow]Player \x27{nameA}\x27 is already in the list"] ∧
    ((player_command st lineB).dbWrites =
        [DbWrite.updatePlayers
          (joinSep "," (pySorted (nameB :: parsePlayers row.value)))] ∧
      (pySorted (nameB :: parsePlayers row.value)).Pairwise
        (fun x y => strLe x y = true ∧ x ≠ y) ∧
      ∀ x, x ∈ pySorted (nameB :: parsePlayers row.value) ↔
        (x = nameB ∨ x ∈ parsePlayers row.value)) ∧
    ((player_command st lineC).dbWrites =
        [DbWrite.updatePlayers
          (joinSep "," (pySorted ((parsePlayers row.value).filter (fun p => p != nameC))))] ∧
      (pySorted ((parsePlayers row.value).filter (fun p => p != nameC))).Pairwise
        (fun x y => strLe x y = true ∧ x ≠ y) ∧
      ∀ x, x ∈ pySorted ((parsePlayers row.value).filter (fun p => p != nameC)) ↔
        (x ∈ parsePlayers row.value ∧ x ≠ nameC)) := by
  obtain ⟨rdf, sdf, npdf⟩ := st
  simp only at hset
  subst hset
  have hact : lowerStr "add" = "add" := by decide
  have hactD : lowerStr "del" = "del" := by decide
  refine ⟨?_, ⟨?_, ?_, ?_⟩, ⟨?_, ?_, ?_⟩⟩
  · simp [player_command, hsA, hfind, hact, hmemA, rejectWith]
  · simp [player_command, hsB, hfind, hact, hmemB, playerPersist]
  · exact (pySorted_pairwise _).and
      ((pySorted_perm _).symm.nodup (List.Nodup.cons hmemB (parsePlayers_nodup _)))
  · intro x
    rw [(pySorted_perm _).mem_iff]
    simp
  · simp [player_command, hsC, hfind, hactD, hmemC, playerPersist]
  · exact (pySorted_pairwise _).and
      ((pySorted_perm _).symm.nodup ((parsePlayers_nodup row.value).filter _))
  · intro x
    rw [(pySorted_perm _).mem_iff]
    simp [List.mem_filter]

/-- C9 witness: `player add bob` twice — the second reports a duplicate and
changes nothing; a successful add persists the sorted, comma-joined set. -/
theorem C9_witness :
    player_command ⟨none, some [⟨"players", "bob"⟩], none⟩ "player add bob" =
      rejectWith ⟨none, some [⟨"players", "bob"⟩], none⟩
        ["[yellow]Player \x27bob\x27 is already in the list"] ∧
    (player_command ⟨none, some [⟨"players", "bob"⟩], none⟩ "player add alice").dbWrites =
      [DbWrite.updatePlayers "alice,bob"] := by
  have h := C9_player_set_invariants ⟨none, some [⟨"players", "bob"⟩], none⟩
    [⟨"players", "bob"⟩] ⟨"players", "bob"⟩
    "player add bob" "player add alice" "player del bob" "bob" "alice" "bob"
    rfl (by decide) (by decide) (by decide) (by decide) (by decide)
    (by decide) (by decide)
  refine ⟨by rw [h.1]; rfl, ?_⟩
  rw [h.2.1.1]
  decide

/-! Lemmas and claims about coordinate validation. -/

lemma firstCoordErr_eq_none_iff (l : List String) :
    firstCoordErr l = none ↔ ∀ c ∈ l, tpCoordErr c = none := by
  induction l with
  | nil => simp [firstCoordErr]
  | cons c cs ih => cases h : tpCoordErr c <;> simp [firstCoordErr, h, ih]

/-- C1, counterexample to the claim as stated: the token grammars differ from
the claimed one on both handlers.  `tp` accepts `~-abc` (anything after `~-`
is unchecked) although it is not `~` followed by a float literal, and
`namedpos add` rejects the bare `~` (it accepts only plain float literals),
printing a message and writing nothing. -/
theorem C1_counterexample :
    specCoordTokenOk "~-abc" = false ∧
    (tp_command ⟨none, none, none⟩ allOk "tp steve ~-abc 0 0").sends =
      ["tp steve ~-abc 0 0"] ∧
    specCoordTokenOk "~" = true ∧
    (namedpos_command ⟨none, none, some []⟩ "namedpos add home ~ 0 0").prints =
      ["[yellow]Position coordinates must be numbers"] ∧
    (namedpos_command ⟨none, none, some []⟩ "namedpos add home ~ 0 0").dbWrites = [] ∧
    (namedpos_command ⟨none, none, some []⟩ "namedpos add home ~ 0 0").state.named_pos_df =
      some [] := by decide

/-- C1, amended: both handlers hard-reject (message, no transport call, no
database write, store contents unchanged) unless exactly three coordinate
tokens remain after comma-to-space normalization and empty-token filtering.
The per-token grammars, however, differ between the handlers and from the
claim: `namedpos add` accepts a token iff Python `float()` accepts it (all
tilde forms rejected), while `tp` accepts a token iff it is `~`, or starts
with `~-` or `~+` (remainder unchecked), or `float()` accepts it, or it
starts with `~` and `float()` accepts the remainder — acceptance of the
three tokens being exactly `firstCoordErr = none`. -/
theorem C1_coordinate_validation
    (st : ServerState) (sendRes : Nat → PyResult)
    (line1 line2 player d posname c1 : String) (ds crest : List String)
    (hs1 : pySplit line1 = "tp" :: player :: d :: ds)
    (hAt : startsWithStr (joinSep " " (d :: ds)) "@" = false)
    (hres : resolveDestination st (joinSep " " (d :: ds)) = joinSep " " (d :: ds))
    (hs2 : pySplit line2 = "namedpos" :: "add" :: posname :: c1 :: crest) :
    ((pySplit (commaToSpace (joinSep " " (d :: ds)))).length ≠ 3 →
      tp_command st sendRes line1 =
        rejectWith st ["[yellow]Position must be three coordinates (x y z)"]) ∧
    (∀ m, firstCoordErr (pySplit (commaToSpace (joinSep " " (d :: ds)))) = some m →
      (pySplit (commaToSpace (joinSep " " (d :: ds)))).length = 3 →
      tp_command st sendRes line1 = rejectWith st [m]) ∧
    (firstCoordErr (pySplit (commaToSpace (joinSep " " (d :: ds)))) = none →
      (pySplit (commaToSpace (joinSep " " (d :: ds)))).length = 3 →
      (tp_command st sendRes line1).sends =
        [tpCmdStr player (joinSep " " (pySplit (commaToSpace (joinSep " " (d :: ds)))))]) ∧
    (firstCoordErr (pySplit (commaToSpace (joinSep " " (d :: ds)))) = none ↔
      ∀ c ∈ pySplit (commaToSpace (joinSep " " (d :: ds))), tpCoordErr c = none) ∧
    ((pySplit (commaToSpace (joinSep " " (c1 :: crest)))).length ≠ 3 →
      namedpos_command st line2 =
        rejectWith ⟨st.resources_df, st.settings_df, some (st.named_pos_df.getD [])⟩
          ["[yellow]Position must be three numbers (x y z)"]) ∧
    ((pySplit (commaToSpace (joinSep " " (c1 :: crest)))).length = 3 →
      (pySplit (commaToSpace (joinSep " " (c1 :: crest)))).all isPyFloat = false →
      namedpos_command st line2 =
        rejectWith ⟨st.resources_df, st.settings_df, some (st.named_pos_df.getD [])⟩
          ["[yellow]Position coordinates must be numbers"]) ∧
    ((pySplit (commaToSpace (joinSep " " (c1 :: crest)))).length = 3 →
      (pySplit (commaToSpace (joinSep " " (c1 :: crest)))).all isPyFloat = true →
      (st.named_pos_df.getD []).find? (fun r => r.pos_name == posname) = none →
      namedpos_command st line2 =
        { prints := [namedposAddedMsg posname
            (joinSep " " (pySplit (commaToSpace (joinSep " " (c1 :: crest)))))],
          sends := [],
          dbWrites := [DbWrite.insertNamedPos posname
            (joinSep " " (pySplit (commaToSpace (joinSep " " (c1 :: crest)))))],
          state := ⟨st.resources_df, st.settings_df,
            some ((st.named_pos_df.getD []) ++
              [⟨posname, joinSep " " (pySplit (commaToSpace (joinSep " " (c1 :: crest))))⟩])⟩ }) := by
  have hact : lowerStr "add" = "add" := by decide
  have hcond : ((("add" : String) != "add") && (("add" : String) != "del") &&
      (("add" : String) != "list")) = false := by decide
  have hlist : (("add" : String) == "list") = false := by decide
  have haddT : (("add" : String) == "add") = true := by decide
  have hlen2 : ¬(crest.length + 1 + 1 + 1 + 1 < 2) := by omega
  have hlen4 : ¬(crest.length + 1 + 1 + 1 + 1 < 4) := by omega
  refine ⟨?_, ?_, ?_, firstCoordErr_eq_none_iff _, ?_, ?_, ?_⟩
  · intro h
    have hb : ((pySplit (commaToSpace (joinSep " " (d :: ds)))).length != 3) = true := by
      simpa [bne_iff_ne] using h
    simp [tp_command, hs1, hAt, hres, hb]
  · intro m hm h3
    have hb : ((pySplit (commaToSpace (joinSep " " (d :: ds)))).length != 3) = false := by
      simp [h3]
    simp [tp_command, hs1, hAt, hres, hb, hm]
  · intro hnone h3
    have hb : ((pySplit (commaToSpace (joinSep " " (d :: ds)))).length != 3) = false := by
      simp [h3]
    simp [tp_command, hs1, hAt, hres, hb, hnone, sendReport_sends]
  · intro h
    have hb : ((pySplit (commaToSpace (joinSep " " (c1 :: crest)))).length != 3) = true := by
      simpa [bne_iff_ne] using h
    simp [namedpos_command, hs2, hlen2, hact, hcond, hlist, haddT, hlen4, hb]
  · intro h3 hfl
    have hb : ((pySplit (commaToSpace (joinSep " " (c1 :: crest)))).length != 3) = false := by
      simp [h3]
    simp [namedpos_command, hs2, hlen2, hact, hcond, hlist, haddT, hlen4, hb, hfl]
  · intro h3 hfl hfresh
    have hb : ((pySplit (commaToSpace (joinSep " " (c1 :: crest)))).length != 3) = false := by
      simp [h3]
    simp [namedpos_command, hs2, hlen2, hact, hcond, hlist, haddT, hlen4, hb, hfl, hfresh]

/-- C1 witness: `tp steve 10,20,30` passes the amended validation and sends
`tp steve 10 20 30`; `namedpos add home 1 2 notanumber` hard-rejects on the
non-float token. -/
theorem C1_witness :
    (tp_command ⟨none, none, some []⟩ allOk "tp steve 10,20,30").sends =
      ["tp steve 10 20 30"] ∧
    namedpos_command ⟨none, none, some []⟩ "namedpos add home 1 2 notanumber" =
      rejectWith ⟨none, none, some []⟩ ["[yellow]Position coordinates must be numbers"] := by
  have h := C1_coordinate_validation ⟨none, none, some []⟩ allOk
    "tp steve 10,20,30" "namedpos add home 1 2 notanumber"
    "steve" "10,20,30" "home" "1" [] ["2", "notanumber"]
    (by decide) (by decide) (by decide) (by decide)
  constructor
  · rw [h.2.2.1 (by decide) (by decide)]
    decide
  · rw [h.2.2.2.2.2.1 (by decide) (by decide)]
    rfl

end McConCtrl
